import Mathlib

/-!
# Verification of `asphalt-sqlalchemy` (`asphalt/sqlalchemy/component.py`)

A shallow embedding of `SQLAlchemyComponent`: its constructor (engine
resolution, sqlite connect-args accommodation, forced session options),
the synchronous and asynchronous session-teardown finalizers, and the
shutdown disposal step.  External SQLAlchemy behaviour (whether engine
construction succeeds, whether commit/rollback raise) is abstracted into
explicit oracle structures, so that every control-flow path of the
component's own code is represented.
-/

set_option autoImplicit false

namespace AsphaltSqlalchemy

/-- Python exceptions relevant to the component.  `invalidRequest` stands for
SQLAlchemy's `InvalidRequestError` (the only class caught by the component);
every other failure mode is a distinct, uncaught value. -/
inductive PyError where
  | invalidRequest
  | typeError
  | attributeError
  | other (code : Nat)
  deriving DecidableEq, Repr

/-- Session classes that can appear under the `class_` key of `session_args`:
`Session`, `AsyncSession`, or some caller-supplied custom class. -/
inductive SessionClass where
  | session
  | asyncSession
  | custom (id : Nat)
  deriving DecidableEq, Repr

/-- Scalar values stored in Python dictionaries. -/
inductive SVal where
  | bool (b : Bool)
  | str (s : String)
  | nat (n : Nat)
  | sessionClass (c : SessionClass)
  | ctxRef (id : Nat)
  deriving DecidableEq, Repr

/-- Values stored in the component's dictionaries (`engine_args`,
`session_args`, `session.info`): a scalar, or a flat sub-dictionary of
scalars (the shape of `connect_args`, the only nested mapping the component
inspects). -/
inductive Val where
  | scalar (v : SVal)
  | dict (entries : List (String × SVal))
  deriving DecidableEq, Repr

/-- A Python `dict` with string keys, as an insertion-ordered association
list; the first entry for a key is authoritative. -/
abbrev Dict := List (String × Val)

/-- An inner dictionary of scalars (e.g. `connect_args`). -/
abbrev SDict := List (String × SVal)

/-- Lookup `d[k]` (first matching key). -/
def dictLookup {α : Type} (d : List (String × α)) (k : String) : Option α :=
  match d with
  | [] => none
  | (k', v) :: rest => if k' = k then some v else dictLookup rest k

/-- Assignment `d[k] = v`: replace the value at `k` in place, or append a new entry. -/
def dictSet {α : Type} (d : List (String × α)) (k : String) (v : α) :
    List (String × α) :=
  match d with
  | [] => [(k, v)]
  | (k', v') :: rest =>
      if k' = k then (k', v) :: rest else (k', v') :: dictSet rest k v

/-- Python `d.setdefault(k, v)`: return the stored value if `k` is present,
otherwise insert `(k, v)` at the end; yields the updated dict and the value
the call returns. -/
def dictSetdefault {α : Type} (d : List (String × α)) (k : String) (v : α) :
    List (String × α) × α :=
  match dictLookup d k with
  | some v' => (d, v')
  | none => (d ++ [(k, v)], v)

/-- Deletion `del d[k]`: remove the entry at `k` (only used when the key is present). -/
def dictDel {α : Type} (d : List (String × α)) (k : String) :
    List (String × α) :=
  match d with
  | [] => []
  | (k', v') :: rest => if k' = k then rest else (k', v') :: dictDel rest k

/-- A SQLAlchemy URL, reduced to the parts the component inspects: the
drivername (e.g. `"postgresql+asyncpg"`) and the opaque remainder. -/
structure Url where
  drivername : String
  rest : String
  deriving DecidableEq, Repr

/-- Characters before the first `+` (the whole list when there is none). -/
def takeUntilPlus : List Char → List Char
  | [] => []
  | c :: cs => if c = '+' then [] else c :: takeUntilPlus cs

/-- Dialect introspection `url.get_dialect().name`: the dialect is the
drivername up to the first `+` separator. -/
def Url.dialectName (u : Url) : String :=
  String.mk (takeUntilPlus u.drivername.data)

/-- Characters before and after the first `"://"` occurrence (`none` after
when the separator does not occur). -/
def splitOnUrlSep : List Char → List Char × Option (List Char)
  | [] => ([], none)
  | ':' :: '/' :: '/' :: rest => ([], some rest)
  | c :: cs =>
    match splitOnUrlSep cs with
    | (pre, post) => (c :: pre, post)

/-- Parsing `sqlalchemy.engine.url.make_url` on a string, reduced to the
parts the component inspects: drivername before `"://"`, remainder after. -/
def make_url (s : String) : Url :=
  match splitOnUrlSep s.data with
  | (pre, some post) => { drivername := String.mk pre, rest := String.mk post }
  | (_, none) => { drivername := s, rest := "" }

/-- Construction `URL.create(**url)` applied to a keyword dictionary: requires a string
`drivername`; other components are opaque to this component. -/
def URL.create (d : Dict) : Except PyError Url :=
  match dictLookup d "drivername" with
  | some (Val.scalar (SVal.str s)) => Except.ok { drivername := s, rest := "" }
  | _ => Except.error PyError.typeError

/-- Pool classes are opaque; a symbolic name resolves to one of these. -/
abbrev PoolClass := String

/-- An engine: either constructed by the component (recording exactly the
arguments of the `create_engine`/`create_async_engine` call, and whether
`apply_sqlite_hacks` was applied to it), or supplied externally through
`bind`. -/
inductive Engine where
  | created (isAsync : Bool) (url : Url) (pool : Option PoolClass)
      (args : Dict) (hacks : Bool)
  | external (isAsync : Bool) (dialect : String) (driver : String)
  deriving DecidableEq, Repr

/-- Whether the engine is an `AsyncEngine` (`isinstance(e, AsyncEngine)`). -/
def Engine.isAsync : Engine → Bool
  | .created a _ _ _ _ => a
  | .external a _ _ => a

/-- Construction arguments recorded on a component-created engine. -/
def Engine.argsOf : Engine → Option Dict
  | .created _ _ _ ar _ => some ar
  | .external _ _ _ => none

/-- The `bind` argument / `self.bind` attribute: a connection or an engine.
`isinstance(self.bind, Engine)` holds exactly for `.engine e` with `e`
synchronous; `isinstance(self.bind, AsyncEngine)` for `.engine e` with `e`
asynchronous. -/
inductive Bind where
  | connection (eng : Engine)
  | engine (eng : Engine)
  deriving DecidableEq, Repr

/-- Property `bind.engine`: a connection exposes its engine; an engine's `.engine`
property is itself. -/
def Bind.engineOf : Bind → Engine
  | .connection e => e
  | .engine e => e

/-- The `url` constructor argument: absent, a string, a `URL` object, or a
dictionary of `URL.create` keyword arguments. -/
inductive UrlArg where
  | noUrl
  | str (s : String)
  | url (u : Url)
  | dict (d : Dict)
  deriving DecidableEq, Repr

/-- The `poolclass` constructor argument: absent, a symbolic reference
string, or a pool class. -/
inductive PoolArg where
  | noPool
  | named (s : String)
  | pool (p : PoolClass)
  deriving DecidableEq, Repr

/-- The keyword arguments of `SQLAlchemyComponent.__init__`. -/
structure Config where
  url : UrlArg := UrlArg.noUrl
  bind : Option Bind := none
  engine_args : Option Dict := none
  session_args : Option Dict := none
  commit_executor_workers : Nat := 5
  poolclass : PoolArg := PoolArg.noPool
  resource_name : String := "default"
  deriving Repr

/-- Oracle for the external SQLAlchemy layer: for given construction
arguments, does `create_async_engine` / `create_engine` raise (and what),
and what does `resolve_reference` return for a symbolic pool name.
`none` means the construction succeeds. -/
structure Env where
  asyncEngineFail : Url → Option PoolClass → Dict → Option PyError
  syncEngineFail : Url → Option PoolClass → Dict → Option PyError
  resolveReference : String → PoolClass

/-- Steps of the engine-resolution part of `__init__`, recorded in order so
that theorems can speak about what was and was not performed. -/
inductive InitEvent where
  | normalizedUrl
  | sqliteConnectArgs
  | resolvedPool
  | attemptAsyncEngine
  | createdAsyncEngine
  | createdSyncEngine
  | appliedSqliteHacks
  deriving DecidableEq, Repr

/-- The factory `sessionmaker(bind=..., **session_args)`. -/
structure Sessionmaker where
  bind : Bind
  args : Dict
  deriving DecidableEq, Repr

/-- The attributes `__init__` leaves on a successfully constructed
component. -/
structure ComponentState where
  resource_name : String
  commit_executor_workers : Nat
  bind : Bind
  engine : Engine
  sessionmaker : Sessionmaker
  deriving DecidableEq, Repr

/-- Decidable equality for `Except` results. -/
instance exceptDecEq {e a : Type} [DecidableEq e] [DecidableEq a] :
    DecidableEq (Except e a) := fun x y =>
  match x, y with
  | Except.error u, Except.error v =>
      if h : u = v then isTrue (by rw [h]) else isFalse (by simp [h])
  | Except.error _, Except.ok _ => isFalse (by simp)
  | Except.ok _, Except.error _ => isFalse (by simp)
  | Except.ok u, Except.ok v =>
      if h : u = v then isTrue (by rw [h]) else isFalse (by simp [h])

/-- Result of running `__init__`: the recorded engine-resolution events and
either the constructed component or the exception raised. -/
structure InitOutcome where
  trace : List InitEvent
  result : Except PyError ComponentState
  deriving DecidableEq, Repr

/-- URL normalization in `__init__`: a dict goes through `URL.create`, a
string through `make_url`, a `URL` object passes through, and absence of
both `url` and `bind` raises `TypeError`. -/
def normalizeUrl (u : UrlArg) : Except PyError Url :=
  match u with
  | UrlArg.dict d => URL.create d
  | UrlArg.str s => Except.ok (make_url s)
  | UrlArg.url v => Except.ok v
  | UrlArg.noUrl => Except.error PyError.typeError

/-- The sqlite accommodation in `__init__`:
`engine_args.setdefault("connect_args", {}).setdefault("check_same_thread", False)`.
If the caller stored a non-dict under `"connect_args"`, the second
`setdefault` raises `AttributeError`. -/
def sqliteConnectArgsHack (engine_args : Dict) : Except PyError Dict :=
  match dictSetdefault engine_args "connect_args" (Val.dict []) with
  | (ea, Val.dict ca) =>
      Except.ok (dictSet ea "connect_args"
        (Val.dict (dictSetdefault ca "check_same_thread" (SVal.bool false)).1))
  | (_, Val.scalar _) => Except.error PyError.attributeError

/-- Modelled from the spec: `apply_sqlite_hacks` (from
`asphalt.sqlalchemy.utils`, repository code missing from the sources) is,
per the spec, "further engine-level adjustments (external collaborator
responsibility, invoked here as a hook)"; only its invocation on the
constructed engine is modelled, as a mark on the engine. -/
def apply_sqlite_hacks : Engine → Engine
  | Engine.created a u p ar _ => Engine.created a u p ar true
  | e => e

/-- Pool-class resolution in `__init__`: a symbolic name goes through
`resolve_reference`; record whether resolution happened. -/
def resolvePoolclass (env : Env) (p : PoolArg) :
    Option PoolClass × List InitEvent :=
  match p with
  | PoolArg.noPool => (none, [])
  | PoolArg.named s => (some (env.resolveReference s), [InitEvent.resolvedPool])
  | PoolArg.pool c => (some c, [])

/-- Application of the sqlite accommodation exactly when the dialect is
sqlite (source lines 107-109); other dialects leave `engine_args` alone. -/
def sqliteAdjustedArgs (u : Url) (engine_args : Dict) : Except PyError Dict :=
  if u.dialectName = "sqlite" then sqliteConnectArgsHack engine_args
  else Except.ok engine_args

/-- The `try`/`except` of `__init__` (source lines 115-122): call
`create_async_engine(url, poolclass=pool_class, **engine_args)` and fall
back to `create_engine` with the same arguments exactly when the attempt
raises `InvalidRequestError`; every other exception, and any exception of
the fallback itself, propagates. -/
def createEngineProbing (env : Env) (u : Url) (pc : Option PoolClass)
    (ea : Dict) : List InitEvent × Except PyError Engine :=
  match env.asyncEngineFail u pc ea with
  | none => ([InitEvent.createdAsyncEngine],
      Except.ok (Engine.created true u pc ea false))
  | some PyError.invalidRequest =>
    match env.syncEngineFail u pc ea with
    | none => ([InitEvent.createdSyncEngine],
        Except.ok (Engine.created false u pc ea false))
    | some e => ([], Except.error e)
  | some e => ([], Except.error e)

/-- The `else` branch of `__init__` (no `bind` supplied): normalize the URL,
apply the sqlite `connect_args` accommodation, resolve the pool class, try
`create_async_engine` falling back to `create_engine` exactly on
`InvalidRequestError`, then apply `apply_sqlite_hacks` for sqlite.
Returns the recorded events with either the exception or the resolved
`(self.bind, self.engine)` pair. -/
def resolveFromUrl (env : Env) (cfg : Config) (engine_args : Dict) :
    List InitEvent × Except PyError (Bind × Engine) :=
  match normalizeUrl cfg.url with
  | Except.error e => ([], Except.error e)
  | Except.ok u =>
    let tr0 := [InitEvent.normalizedUrl]
    match sqliteAdjustedArgs u engine_args with
    | Except.error e => (tr0, Except.error e)
    | Except.ok ea =>
      let tr1 := if u.dialectName = "sqlite" then
        tr0 ++ [InitEvent.sqliteConnectArgs] else tr0
      let (pc, trp) := resolvePoolclass env cfg.poolclass
      let tr2 := tr1 ++ trp ++ [InitEvent.attemptAsyncEngine]
      match createEngineProbing env u pc ea with
      | (tre, Except.error e) => (tr2 ++ tre, Except.error e)
      | (tre, Except.ok eng) =>
        if u.dialectName = "sqlite" then
          (tr2 ++ tre ++ [InitEvent.appliedSqliteHacks],
            Except.ok (Bind.engine (apply_sqlite_hacks eng),
              apply_sqlite_hacks eng))
        else
          (tr2 ++ tre, Except.ok (Bind.engine eng, eng))

/-- The forced session options of `__init__` (source lines 89-91):
`session_args = session_args or ` empty, then
`session_args["expire_on_commit"] = False` and
`session_args["future"] = True`. -/
def forcedSessionArgs (session_args : Option Dict) : Dict :=
  dictSet
    (dictSet (session_args.getD []) "expire_on_commit"
      (Val.scalar (SVal.bool false)))
    "future" (Val.scalar (SVal.bool true))

/-- The `class_` defaulting of `__init__` (source lines 127-128):
`session_args.setdefault("class_", AsyncSession)` when the engine is an
`AsyncEngine`. -/
def classDefaulted (session_args : Dict) (eng : Engine) : Dict :=
  if eng.isAsync then
    (dictSetdefault session_args "class_"
      (Val.scalar (SVal.sessionClass SessionClass.asyncSession))).1
  else session_args

/-- Resolution of `(self.bind, self.engine)` in `__init__` (source lines
93-125): a supplied `bind` is used directly (`self.engine = bind.engine`),
otherwise an engine is resolved from the URL. -/
def resolveBinding (env : Env) (cfg : Config) :
    List InitEvent × Except PyError (Bind × Engine) :=
  match cfg.bind with
  | some b => ([], Except.ok (b, b.engineOf))
  | none => resolveFromUrl env cfg (cfg.engine_args.getD [])

/-- Constructor `SQLAlchemyComponent.__init__`, following the source:
force `expire_on_commit`/`future` in `session_args`; use `bind` directly
when supplied, otherwise resolve an engine from the URL; default `class_`
to `AsyncSession` when the engine is asynchronous; build the sessionmaker
bound to `self.bind`. -/
def SQLAlchemyComponent.init (env : Env) (cfg : Config) : InitOutcome :=
  match resolveBinding env cfg with
  | (tr, Except.error e) => { trace := tr, result := Except.error e }
  | (tr, Except.ok (b, eng)) =>
    { trace := tr,
      result := Except.ok
        { resource_name := cfg.resource_name,
          commit_executor_workers := cfg.commit_executor_workers,
          bind := b,
          engine := eng,
          sessionmaker :=
            { bind := b,
              args := classDefaulted (forcedSessionArgs cfg.session_args) eng } } }

/-- A session object, reduced to what the finalizers observe and change:
its class, `in_transaction()`, whether `close()` has run, and the `info`
mapping holding the `"ctx"` back-reference. -/
structure PySession where
  cls : SessionClass
  inTransaction : Bool
  closed : Bool
  info : Dict
  deriving DecidableEq, Repr

/-- Calling the sessionmaker with `info=...`: the session class comes from
the `class_` option (defaulting to `Session`), and the fresh session is
open and outside any transaction. -/
def Sessionmaker.call (sm : Sessionmaker) (info : Dict) : PySession :=
  { cls :=
      match dictLookup sm.args "class_" with
      | some (Val.scalar (SVal.sessionClass c)) => c
      | _ => SessionClass.session,
    inTransaction := false,
    closed := false,
    info := info }

/-- Session creation `self.sessionmaker(info=...)` with the `"ctx"`
context reference, as performed by both
`create_session` and `create_async_session`. -/
def createSessionObject (sm : Sessionmaker) (ctxId : Nat) : PySession :=
  sm.call [("ctx", Val.scalar (SVal.ctxRef ctxId))]

/-- Oracle for the external session operations a finalizer performs:
whether `commit()` / `rollback()` raise (`none` means success). -/
structure DbEnv where
  commitFail : Option PyError
  rollbackFail : Option PyError

/-- The observable steps a teardown finalizer takes, in order. -/
inductive TAct where
  | commit
  | rollback
  | close
  | removeCtx
  deriving DecidableEq, Repr

/-- What a finalizer run produces: the session's final state, the ordered
steps taken, and the exception propagating out of the finalizer (if any). -/
structure TeardownResult where
  session : PySession
  acts : List TAct
  raised : Option PyError
  deriving DecidableEq, Repr

/-- The `try` block of both finalizers: when the session is in a
transaction, commit if the unit of work ended without a failure, otherwise
roll back; a successful commit/rollback ends the transaction, a raising one
leaves the session as it was and produces the exception. -/
def teardownTryBlock (env : DbEnv) (s : PySession)
    (exception : Option PyError) : PySession × List TAct × Option PyError :=
  if s.inTransaction then
    match exception with
    | none =>
      match env.commitFail with
      | none => ({ s with inTransaction := false }, [TAct.commit], none)
      | some e => (s, [TAct.commit], some e)
    | some _ =>
      match env.rollbackFail with
      | none => ({ s with inTransaction := false }, [TAct.rollback], none)
      | some e => (s, [TAct.rollback], some e)
  else (s, [], none)

/-- Finalizer `teardown_session` from `create_session` (run on the commit
executor):
the `try` block above, then unconditionally (`finally`) `session.close()`
and `del session.info["ctx"]`; an exception from the `try` block propagates
after the cleanup completes. -/
def teardown_session (env : DbEnv) (s : PySession)
    (exception : Option PyError) : TeardownResult :=
  match teardownTryBlock env s exception with
  | (s1, acts, err) =>
    let s2 : PySession :=
      { cls := s1.cls, inTransaction := false, closed := true,
        info := dictDel s1.info "ctx" }
    { session := s2,
      acts := acts ++ [TAct.close, TAct.removeCtx],
      raised := err }

/-- Finalizer `teardown_session` from `create_async_session` (awaited
inline): the
same logic with each step awaited; the awaited sequencing collapses to the
same state transformation. -/
def teardown_session_async (env : DbEnv) (s : PySession)
    (exception : Option PyError) : TeardownResult :=
  match teardownTryBlock env s exception with
  | (s1, acts, err) =>
    let s2 : PySession :=
      { cls := s1.cls, inTransaction := false, closed := true,
        info := dictDel s1.info "ctx" }
    { session := s2,
      acts := acts ++ [TAct.close, TAct.removeCtx],
      raised := err }

/-- Disposal performed at shutdown (after the `yield` in `start`). -/
inductive DisposeAction where
  | disposeSync
  | disposeAsync
  deriving DecidableEq, Repr

/-- Keys of a dictionary representation. -/
def dictKeys {α : Type} (d : List (String × α)) : List String :=
  d.map Prod.fst

/-- Well-formedness of the association-list representation of a Python
dict: keys occur at most once. -/
def DictWF {α : Type} (d : List (String × α)) : Prop :=
  (dictKeys d).Nodup

instance {α : Type} (d : List (String × α)) : Decidable (DictWF d) := by
  unfold DictWF; infer_instance

/-- The shutdown step of `start`: `self.bind.dispose()` when `self.bind` is
a (synchronous) `Engine`, `await self.bind.dispose()` when it is an
`AsyncEngine`, and nothing when it is a connection. -/
def shutdownDispose (bind : Bind) : List DisposeAction :=
  match bind with
  | Bind.engine e =>
      if e.isAsync then [DisposeAction.disposeAsync]
      else [DisposeAction.disposeSync]
  | Bind.connection _ => []

/-! ## Concrete instances used by witnesses and counterexamples -/

/-- An external-layer oracle where asynchronous engine construction rejects
the driver (`InvalidRequestError`) and synchronous construction succeeds. -/
def probeEnv : Env :=
  { asyncEngineFail := fun _ _ _ => some PyError.invalidRequest,
    syncEngineFail := fun _ _ _ => none,
    resolveReference := fun s => s }

/-- An externally supplied synchronous engine. -/
def extSyncEngine : Engine := Engine.external false "postgresql" "psycopg2"

/-- An externally supplied asynchronous engine. -/
def extAsyncEngine : Engine := Engine.external true "postgresql" "asyncpg"

/-- The empty keyword-argument set: neither `url` nor `bind`. -/
def cfgEmpty : Config := {}

/-- A configuration whose caller-supplied `session_args` conflict with both
forced session options. -/
def cfgConflictingSessionArgs : Config :=
  { bind := some (Bind.engine extSyncEngine),
    session_args := some
      [("expire_on_commit", Val.scalar (SVal.bool true)),
       ("future", Val.scalar (SVal.bool false))] }

/-- The component state `__init__` produces for
`cfgConflictingSessionArgs`. -/
def stConflicting : ComponentState :=
  { resource_name := "default", commit_executor_workers := 5,
    bind := Bind.engine extSyncEngine, engine := extSyncEngine,
    sessionmaker :=
      { bind := Bind.engine extSyncEngine,
        args := [("expire_on_commit", Val.scalar (SVal.bool false)),
                 ("future", Val.scalar (SVal.bool true))] } }

/-- A configuration supplying both `url` and `bind`. -/
def cfgBothUrlAndBind : Config :=
  { url := UrlArg.str "sqlite:///test.db",
    bind := some (Bind.connection extAsyncEngine) }

/-- A configuration with an asynchronous bound resource and a
caller-supplied `class_` in `session_args`. -/
def cfgAsyncWithCallerClass : Config :=
  { bind := some (Bind.engine extAsyncEngine),
    session_args := some
      [("class_", Val.scalar (SVal.sessionClass SessionClass.session))] }

/-- The component state `__init__` produces for
`cfgAsyncWithCallerClass`. -/
def stAsyncWithCallerClass : ComponentState :=
  { resource_name := "default", commit_executor_workers := 5,
    bind := Bind.engine extAsyncEngine, engine := extAsyncEngine,
    sessionmaker :=
      { bind := Bind.engine extAsyncEngine,
        args := [("class_", Val.scalar (SVal.sessionClass SessionClass.session)),
                 ("expire_on_commit", Val.scalar (SVal.bool false)),
                 ("future", Val.scalar (SVal.bool true))] } }

/-- A configuration with an asynchronous bound resource and no
caller-supplied `class_`. -/
def cfgAsyncNoClass : Config :=
  { bind := some (Bind.engine extAsyncEngine) }

/-- The component state `__init__` produces for `cfgAsyncNoClass`. -/
def stAsyncNoClass : ComponentState :=
  { resource_name := "default", commit_executor_workers := 5,
    bind := Bind.engine extAsyncEngine, engine := extAsyncEngine,
    sessionmaker :=
      { bind := Bind.engine extAsyncEngine,
        args := [("expire_on_commit", Val.scalar (SVal.bool false)),
                 ("future", Val.scalar (SVal.bool true)),
                 ("class_", Val.scalar
                   (SVal.sessionClass SessionClass.asyncSession))] } }

/-- A sqlite configuration whose caller-supplied `connect_args` already
sets `check_same_thread`. -/
def cfgSqliteCallerCST : Config :=
  { url := UrlArg.str "sqlite:///test.db",
    engine_args := some
      [("connect_args", Val.dict [("check_same_thread", SVal.bool true)])] }

/-- A session-operation oracle whose `commit()` raises. -/
def envCommitBoom : DbEnv :=
  { commitFail := some (PyError.other 7), rollbackFail := none }

/-- A session currently in an open transaction, tagged with a context. -/
def sOpen : PySession :=
  { cls := SessionClass.session, inTransaction := true, closed := false,
    info := [("ctx", Val.scalar (SVal.ctxRef 0))] }

/-- A session outside any transaction, tagged with a context. -/
def sIdle : PySession :=
  { cls := SessionClass.session, inTransaction := false, closed := false,
    info := [("ctx", Val.scalar (SVal.ctxRef 0))] }

/-! ## Dictionary lemmas -/

theorem dictLookup_set_self {α : Type} (d : List (String × α)) (k : String)
    (v : α) : dictLookup (dictSet d k v) k = some v := by
  induction d with
  | nil => simp [dictSet, dictLookup]
  | cons hd tl ih =>
    rcases hd with ⟨k', v'⟩
    by_cases h : k' = k <;> simp [dictSet, dictLookup, h, ih]

theorem dictLookup_set_ne {α : Type} (d : List (String × α)) (k k' : String)
    (v : α) (h : k' ≠ k) :
    dictLookup (dictSet d k v) k' = dictLookup d k' := by
  induction d with
  | nil => simp [dictSet, dictLookup, Ne.symm h]
  | cons hd tl ih =>
    rcases hd with ⟨k0, v0⟩
    by_cases h0 : k0 = k <;> by_cases h1 : k0 = k' <;>
      simp_all [dictSet, dictLookup]

theorem dictLookup_append_of_none {α : Type} (d d' : List (String × α))
    (k : String) (h : dictLookup d k = none) :
    dictLookup (d ++ d') k = dictLookup d' k := by
  induction d with
  | nil => simp
  | cons hd tl ih =>
    rcases hd with ⟨k0, v0⟩
    by_cases h0 : k0 = k <;> simp_all [dictLookup]

theorem dictLookup_append_of_some {α : Type} (d d' : List (String × α))
    (k : String) (v : α) (h : dictLookup d k = some v) :
    dictLookup (d ++ d') k = some v := by
  induction d with
  | nil => simp [dictLookup] at h
  | cons hd tl ih =>
    rcases hd with ⟨k0, v0⟩
    by_cases h0 : k0 = k <;> simp_all [dictLookup]

theorem dictSetdefault_snd {α : Type} (d : List (String × α)) (k : String)
    (v : α) : (dictSetdefault d k v).2 = (dictLookup d k).getD v := by
  unfold dictSetdefault
  cases h : dictLookup d k <;> simp [h]

theorem dictLookup_setdefault_self {α : Type} (d : List (String × α))
    (k : String) (v : α) :
    dictLookup (dictSetdefault d k v).1 k = some ((dictLookup d k).getD v) := by
  unfold dictSetdefault
  cases h : dictLookup d k with
  | none =>
    simp only []
    rw [dictLookup_append_of_none d [(k, v)] k h]
    simp [dictLookup]
  | some w => simp [h]

theorem dictLookup_setdefault_ne {α : Type} (d : List (String × α))
    (k k' : String) (v : α) (h : k' ≠ k) :
    dictLookup (dictSetdefault d k v).1 k' = dictLookup d k' := by
  unfold dictSetdefault
  cases h0 : dictLookup d k with
  | none =>
    simp only []
    cases h1 : dictLookup d k' with
    | none =>
      rw [dictLookup_append_of_none d [(k, v)] k' h1]
      simp [dictLookup, Ne.symm h, h1]
    | some w =>
      exact dictLookup_append_of_some d [(k, v)] k' w h1
  | some w => simp

theorem dictLookup_eq_none_of_not_mem {α : Type} (d : List (String × α))
    (k : String) (h : k ∉ dictKeys d) : dictLookup d k = none := by
  induction d with
  | nil => simp [dictLookup]
  | cons hd tl ih =>
    rcases hd with ⟨k0, v0⟩
    simp only [dictKeys, List.map_cons, List.mem_cons] at h
    push_neg at h
    simp [dictLookup, Ne.symm h.1, ih (by simpa [dictKeys] using h.2)]

theorem dictLookup_del_self {α : Type} (d : List (String × α)) (k : String)
    (h : DictWF d) : dictLookup (dictDel d k) k = none := by
  induction d with
  | nil => simp [dictDel, dictLookup]
  | cons hd tl ih =>
    rcases hd with ⟨k0, v0⟩
    unfold DictWF dictKeys at h
    simp only [List.map_cons, List.nodup_cons] at h
    by_cases h0 : k0 = k
    · subst h0
      simp only [dictDel, if_pos rfl]
      exact dictLookup_eq_none_of_not_mem tl k0 (by simpa [dictKeys] using h.1)
    · simp only [dictDel, if_neg h0, dictLookup, if_neg h0]
      exact ih h.2

/-! ## Shape of a successful construction -/

theorem init_ok_shape (env : Env) (cfg : Config) (st : ComponentState)
    (h : (SQLAlchemyComponent.init env cfg).result = Except.ok st) :
    (resolveBinding env cfg).2 = Except.ok (st.bind, st.engine)
      ∧ st.sessionmaker.bind = st.bind
      ∧ st.sessionmaker.args
          = classDefaulted (forcedSessionArgs cfg.session_args) st.engine
      ∧ st.resource_name = cfg.resource_name
      ∧ st.commit_executor_workers = cfg.commit_executor_workers := by
  unfold SQLAlchemyComponent.init at h
  rcases hr : resolveBinding env cfg with ⟨tr, res⟩
  rw [hr] at h
  cases res with
  | error e => simp at h
  | ok be =>
    rcases be with ⟨b, eng⟩
    simp only [Except.ok.injEq] at h
    subst h
    simp [hr]

/-! ## Claims -/

/-- C3: for every caller-supplied `session_args` mapping, the session
factory is constructed with `expire_on_commit` equal to `False` and the
modern-query (`future`) flag equal to `True`, overriding any conflicting
values the caller supplied for those two keys. -/
theorem claim_C3_forced_session_options (env : Env) (cfg : Config)
    (st : ComponentState)
    (h : (SQLAlchemyComponent.init env cfg).result = Except.ok st) :
    dictLookup st.sessionmaker.args "expire_on_commit"
        = some (Val.scalar (SVal.bool false))
      ∧ dictLookup st.sessionmaker.args "future"
        = some (Val.scalar (SVal.bool true)) := by
  obtain ⟨-, -, hargs, -, -⟩ := init_ok_shape env cfg st h
  rw [hargs]
  unfold classDefaulted forcedSessionArgs
  by_cases ha : st.engine.isAsync
  · rw [if_pos ha]
    constructor
    · rw [dictLookup_setdefault_ne _ _ _ _ (by decide),
        dictLookup_set_ne _ _ _ _ (by decide), dictLookup_set_self]
    · rw [dictLookup_setdefault_ne _ _ _ _ (by decide), dictLookup_set_self]
  · rw [if_neg ha]
    constructor
    · rw [dictLookup_set_ne _ _ _ _ (by decide), dictLookup_set_self]
    · rw [dictLookup_set_self]

theorem claim_C3_witness :
    dictLookup stConflicting.sessionmaker.args "expire_on_commit"
        = some (Val.scalar (SVal.bool false))
      ∧ dictLookup stConflicting.sessionmaker.args "future"
        = some (Val.scalar (SVal.bool true)) :=
  claim_C3_forced_session_options probeEnv cfgConflictingSessionArgs
    stConflicting rfl

/-- C4: constructing the component with both `url` and `bind` absent raises
a `TypeError` at construction time; the recorded trace is empty, so no
engine was constructed (and hence no resource could have been created). -/
theorem claim_C4_missing_url_and_bind (env : Env) (cfg : Config)
    (hu : cfg.url = UrlArg.noUrl) (hb : cfg.bind = none) :
    (SQLAlchemyComponent.init env cfg).result
        = Except.error PyError.typeError
      ∧ (SQLAlchemyComponent.init env cfg).trace = [] := by
  simp [SQLAlchemyComponent.init, resolveBinding, resolveFromUrl,
    normalizeUrl, hu, hb]

theorem claim_C4_witness :
    (SQLAlchemyComponent.init probeEnv cfgEmpty).result
        = Except.error PyError.typeError
      ∧ (SQLAlchemyComponent.init probeEnv cfgEmpty).trace = [] :=
  claim_C4_missing_url_and_bind probeEnv cfgEmpty rfl rfl

/-- C9: at component shutdown, an externally supplied connection is never
disposed, while a held engine is disposed — synchronously when the binding
is synchronous, awaited when it is asynchronous. -/
theorem claim_C9_shutdown_disposal (b : Bind) :
    (∀ e : Engine, b = Bind.connection e → shutdownDispose b = [])
      ∧ (∀ e : Engine, b = Bind.engine e → e.isAsync = false →
          shutdownDispose b = [DisposeAction.disposeSync])
      ∧ (∀ e : Engine, b = Bind.engine e → e.isAsync = true →
          shutdownDispose b = [DisposeAction.disposeAsync]) := by
  refine ⟨?_, ?_, ?_⟩
  · intro e he; subst he; simp [shutdownDispose]
  · intro e he ha; subst he; simp [shutdownDispose, ha]
  · intro e he ha; subst he; simp [shutdownDispose, ha]

theorem claim_C9_witness :
    shutdownDispose (Bind.connection extAsyncEngine) = []
      ∧ shutdownDispose (Bind.engine extSyncEngine)
          = [DisposeAction.disposeSync]
      ∧ shutdownDispose (Bind.engine extAsyncEngine)
          = [DisposeAction.disposeAsync] :=
  ⟨(claim_C9_shutdown_disposal _).1 extAsyncEngine rfl,
   (claim_C9_shutdown_disposal _).2.1 extSyncEngine rfl rfl,
   (claim_C9_shutdown_disposal _).2.2 extAsyncEngine rfl rfl⟩

/-- C10: if `bind` is supplied, construction succeeds without checking or
using `url` at all (even when `url` is also supplied): the bind is used
directly, and — as the empty trace and the absence of `cfg.url`,
`cfg.engine_args`, `cfg.poolclass` and `env` from the right-hand side show —
URL normalization, the sqlite `connect_args` accommodation, pool-class
resolution, and engine construction are all skipped. -/
theorem claim_C10_bind_bypasses_url (env : Env) (cfg : Config) (b : Bind)
    (hb : cfg.bind = some b) :
    SQLAlchemyComponent.init env cfg =
      { trace := [],
        result := Except.ok
          { resource_name := cfg.resource_name,
            commit_executor_workers := cfg.commit_executor_workers,
            bind := b,
            engine := b.engineOf,
            sessionmaker :=
              { bind := b,
                args := classDefaulted (forcedSessionArgs cfg.session_args)
                  b.engineOf } } } := by
  simp [SQLAlchemyComponent.init, resolveBinding, hb]

theorem claim_C10_witness :
    SQLAlchemyComponent.init probeEnv cfgBothUrlAndBind =
      { trace := [],
        result := Except.ok
          { resource_name := "default",
            commit_executor_workers := 5,
            bind := Bind.connection extAsyncEngine,
            engine := extAsyncEngine,
            sessionmaker :=
              { bind := Bind.connection extAsyncEngine,
                args := [("expire_on_commit", Val.scalar (SVal.bool false)),
                         ("future", Val.scalar (SVal.bool true)),
                         ("class_", Val.scalar
                           (SVal.sessionClass SessionClass.asyncSession))] } } } :=
  (claim_C10_bind_bypasses_url probeEnv cfgBothUrlAndBind
    (Bind.connection extAsyncEngine) rfl).trans rfl

/-! ## Engine probing -/

theorem argsOf_apply_sqlite_hacks (e : Engine) :
    (apply_sqlite_hacks e).argsOf = e.argsOf := by
  cases e <;> simp [apply_sqlite_hacks, Engine.argsOf]

theorem createEngineProbing_ok_args (env : Env) (u : Url)
    (pc : Option PoolClass) (ea : Dict) (tre : List InitEvent) (eng : Engine)
    (h : createEngineProbing env u pc ea = (tre, Except.ok eng)) :
    eng.argsOf = some ea := by
  unfold createEngineProbing at h
  cases ha : env.asyncEngineFail u pc ea with
  | none =>
    rw [ha] at h
    simp only [Prod.mk.injEq, Except.ok.injEq] at h
    rw [← h.2]
    rfl
  | some e =>
    cases e <;> rw [ha] at h <;> simp only [Prod.mk.injEq] at h
    case invalidRequest =>
      cases hs : env.syncEngineFail u pc ea with
      | none =>
        rw [hs] at h
        simp only [Prod.mk.injEq, Except.ok.injEq] at h
        rw [← h.2]
        rfl
      | some e' => rw [hs] at h; simp at h
    all_goals simp at h

theorem resolveFromUrl_ok_engine_args (env : Env) (cfg : Config) (u : Url)
    (ea' : Dict) (b : Bind) (eng : Engine)
    (hu : normalizeUrl cfg.url = Except.ok u)
    (hea : sqliteAdjustedArgs u (cfg.engine_args.getD []) = Except.ok ea')
    (hr : (resolveFromUrl env cfg (cfg.engine_args.getD [])).2
      = Except.ok (b, eng)) :
    eng.argsOf = some ea' := by
  rcases hp : resolvePoolclass env cfg.poolclass with ⟨pc, trp⟩
  rcases hc : createEngineProbing env u pc ea' with ⟨tre, res⟩
  unfold resolveFromUrl at hr
  cases res with
  | error e =>
    simp only [hu, hea, hp, hc] at hr
    simp at hr
  | ok eng0 =>
    by_cases hd : u.dialectName = "sqlite" <;>
      simp only [hu, hea, hp, hc, hd, if_true, if_false, ite_true,
        ite_false, Except.ok.injEq, Prod.mk.injEq] at hr
    · rw [← hr.2, argsOf_apply_sqlite_hacks]
      exact createEngineProbing_ok_args env u pc ea' tre eng0 hc
    · rw [← hr.2]
      exact createEngineProbing_ok_args env u pc ea' tre eng0 hc

theorem attemptAsync_mem_init_trace (env : Env) (cfg : Config) (u : Url)
    (ea' : Dict) (hb : cfg.bind = none)
    (hu : normalizeUrl cfg.url = Except.ok u)
    (hea : sqliteAdjustedArgs u (cfg.engine_args.getD []) = Except.ok ea') :
    InitEvent.attemptAsyncEngine
      ∈ (SQLAlchemyComponent.init env cfg).trace := by
  have htr : (SQLAlchemyComponent.init env cfg).trace
      = (resolveBinding env cfg).1 := by
    unfold SQLAlchemyComponent.init
    rcases hr : resolveBinding env cfg with ⟨tr, res⟩
    cases res with
    | error e => rfl
    | ok be => rcases be with ⟨b, eng⟩; rfl
  rw [htr]
  rcases hp : resolvePoolclass env cfg.poolclass with ⟨pc, trp⟩
  rcases hc : createEngineProbing env u pc ea' with ⟨tre, res⟩
  unfold resolveBinding resolveFromUrl
  cases res <;> by_cases hd : u.dialectName = "sqlite" <;>
    simp [hb, hu, hea, hp, hc, hd]

/-- C2: engine resolution from a URL always attempts asynchronous engine
construction first; exactly the `InvalidRequestError` failure from that
attempt causes a fallback to a synchronous engine constructed with the same
arguments, and the fallback is never observed by the caller; every other
construction failure propagates to the caller unmodified and is not
retried (the synchronous constructor is never consulted for it). -/
theorem claim_C2_async_first_probing (env : Env) (u : Url)
    (pc : Option PoolClass) (ea : Dict) :
    (env.asyncEngineFail u pc ea = none →
        createEngineProbing env u pc ea
          = ([InitEvent.createdAsyncEngine],
             Except.ok (Engine.created true u pc ea false)))
      ∧ (env.asyncEngineFail u pc ea = some PyError.invalidRequest →
          env.syncEngineFail u pc ea = none →
          createEngineProbing env u pc ea
            = ([InitEvent.createdSyncEngine],
               Except.ok (Engine.created false u pc ea false)))
      ∧ (∀ e : PyError,
          env.asyncEngineFail u pc ea = some PyError.invalidRequest →
          env.syncEngineFail u pc ea = some e →
          createEngineProbing env u pc ea = ([], Except.error e))
      ∧ (∀ e : PyError, env.asyncEngineFail u pc ea = some e →
          e ≠ PyError.invalidRequest →
          ∀ sf : Url → Option PoolClass → Dict → Option PyError,
            createEngineProbing { env with syncEngineFail := sf } u pc ea
              = ([], Except.error e))
      ∧ (∀ cfg : Config, cfg.bind = none →
          ∀ u' : Url, normalizeUrl cfg.url = Except.ok u' →
          ∀ ea' : Dict,
            sqliteAdjustedArgs u' (cfg.engine_args.getD [])
              = Except.ok ea' →
            InitEvent.attemptAsyncEngine
              ∈ (SQLAlchemyComponent.init env cfg).trace) := by
  refine ⟨?_, ?_, ?_, ?_, ?_⟩
  · intro h
    unfold createEngineProbing
    rw [h]
  · intro ha hs
    unfold createEngineProbing
    rw [ha, hs]
  · intro e ha hs
    unfold createEngineProbing
    rw [ha, hs]
  · intro e ha hne sf
    unfold createEngineProbing
    have hproj : ({ env with syncEngineFail := sf } : Env).asyncEngineFail
        = env.asyncEngineFail := rfl
    rw [hproj, ha]
    cases e with
    | invalidRequest => exact absurd rfl hne
    | typeError => rfl
    | attributeError => rfl
    | other n => rfl
  · intro cfg hb u' hu ea' hea
    exact attemptAsync_mem_init_trace env cfg u' ea' hb hu hea

theorem claim_C2_witness :
    createEngineProbing probeEnv (make_url "postgresql://u@h/db") none []
      = ([InitEvent.createdSyncEngine],
         Except.ok
           (Engine.created false (make_url "postgresql://u@h/db")
             none [] false)) :=
  (claim_C2_async_first_probing probeEnv
    (make_url "postgresql://u@h/db") none []).2.1 rfl rfl

/-- Effect of the sqlite `connect_args` accommodation on a well-formed
`engine_args` (the caller's `connect_args`, if any, is a dictionary): the
result carries `connect_args` whose `check_same_thread` entry is the
caller's value when one was supplied and `False` otherwise. -/
theorem sqliteConnectArgsHack_spec (ea0 : Dict)
    (hwf : dictLookup ea0 "connect_args" = none
      ∨ ∃ ca : SDict, dictLookup ea0 "connect_args" = some (Val.dict ca)) :
    ∃ ea' : Dict, ∃ ca' : SDict,
      sqliteConnectArgsHack ea0 = Except.ok ea'
      ∧ dictLookup ea' "connect_args" = some (Val.dict ca')
      ∧ dictLookup ca' "check_same_thread"
          = some (((dictLookup ea0 "connect_args").bind
              (fun v => match v with
                | Val.dict ca => dictLookup ca "check_same_thread"
                | Val.scalar _ => none)).getD (SVal.bool false)) := by
  rcases hwf with hnone | ⟨ca, hca⟩
  · refine ⟨dictSet (ea0 ++ [("connect_args", Val.dict [])]) "connect_args"
        (Val.dict [("check_same_thread", SVal.bool false)]),
      [("check_same_thread", SVal.bool false)], ?_, ?_, ?_⟩
    · unfold sqliteConnectArgsHack dictSetdefault
      rw [hnone]
      simp [dictLookup]
    · exact dictLookup_set_self _ _ _
    · rw [hnone]
      simp [dictLookup]
  · refine ⟨dictSet ea0 "connect_args"
        (Val.dict (dictSetdefault ca "check_same_thread"
          (SVal.bool false)).1),
      (dictSetdefault ca "check_same_thread" (SVal.bool false)).1,
      ?_, ?_, ?_⟩
    · unfold sqliteConnectArgsHack dictSetdefault
      rw [hca]
    · exact dictLookup_set_self _ _ _
    · rw [hca, dictLookup_setdefault_self]
      rfl

/-- C8: when the URL resolves to the sqlite dialect (and no bind is
supplied), the arguments passed to engine construction carry `connect_args`
containing `check_same_thread = False` unless the caller already supplied a
value for that key, in which case the caller's value is preserved
unchanged; the constructed engine records exactly those adjusted
arguments. -/
theorem claim_C8_sqlite_connect_args (env : Env) (cfg : Config) (u : Url)
    (hb : cfg.bind = none)
    (hu : normalizeUrl cfg.url = Except.ok u)
    (hd : u.dialectName = "sqlite")
    (hwf : dictLookup (cfg.engine_args.getD []) "connect_args" = none
      ∨ ∃ ca : SDict, dictLookup (cfg.engine_args.getD []) "connect_args"
          = some (Val.dict ca)) :
    ∃ ea' : Dict, ∃ ca' : SDict,
      sqliteAdjustedArgs u (cfg.engine_args.getD []) = Except.ok ea'
      ∧ dictLookup ea' "connect_args" = some (Val.dict ca')
      ∧ dictLookup ca' "check_same_thread"
          = some (((dictLookup (cfg.engine_args.getD [])
              "connect_args").bind
                (fun v => match v with
                  | Val.dict ca => dictLookup ca "check_same_thread"
                  | Val.scalar _ => none)).getD (SVal.bool false))
      ∧ (∀ st : ComponentState,
          (SQLAlchemyComponent.init env cfg).result = Except.ok st →
          st.engine.argsOf = some ea') := by
  obtain ⟨ea', ca', hhack, hlook, hcst⟩ :=
    sqliteConnectArgsHack_spec (cfg.engine_args.getD []) hwf
  have hadj : sqliteAdjustedArgs u (cfg.engine_args.getD [])
      = Except.ok ea' := by
    unfold sqliteAdjustedArgs
    rw [if_pos hd]
    exact hhack
  refine ⟨ea', ca', hadj, hlook, hcst, ?_⟩
  intro st hst
  obtain ⟨hres, -, -, -, -⟩ := init_ok_shape env cfg st hst
  rw [resolveBinding, hb] at hres
  exact resolveFromUrl_ok_engine_args env cfg u ea' st.bind st.engine
    hu hadj hres

theorem claim_C8_witness :
    ∃ ea' : Dict, ∃ ca' : SDict,
      sqliteAdjustedArgs (make_url "sqlite:///test.db")
          (cfgSqliteCallerCST.engine_args.getD []) = Except.ok ea'
        ∧ dictLookup ea' "connect_args" = some (Val.dict ca')
        ∧ dictLookup ca' "check_same_thread" = some (SVal.bool true) := by
  obtain ⟨ea', ca', h1, h2, h3, -⟩ :=
    claim_C8_sqlite_connect_args probeEnv cfgSqliteCallerCST
      (make_url "sqlite:///test.db") rfl rfl (by decide)
      (Or.inr ⟨[("check_same_thread", SVal.bool true)], rfl⟩)
  exact ⟨ea', ca', h1, h2, h3⟩

/-- C5 counterexample: with an asynchronous bound resource and a
caller-supplied `class_` in `session_args`, construction keeps the caller's
class — the sessionmaker's `class_` option is the synchronous `Session`
class and the session it produces is not of the asynchronous session type,
refuting the claim that the asynchronous class is forced regardless of
caller input. -/
theorem claim_C5_counterexample :
    (SQLAlchemyComponent.init probeEnv cfgAsyncWithCallerClass).result
        = Except.ok stAsyncWithCallerClass
      ∧ stAsyncWithCallerClass.engine.isAsync = true
      ∧ dictLookup stAsyncWithCallerClass.sessionmaker.args "class_"
          = some (Val.scalar (SVal.sessionClass SessionClass.session))
      ∧ (stAsyncWithCallerClass.sessionmaker.call
            [("ctx", Val.scalar (SVal.ctxRef 0))]).cls
          ≠ SessionClass.asyncSession :=
  ⟨rfl, rfl, rfl, by decide⟩

/-- C5 (amended): when the resolved bound resource is asynchronous, the
asynchronous session class is installed as the default `class_` of the
session construction options: a caller-supplied class is preserved, and
when the caller supplied none, every session produced by the factory is of
the asynchronous session type. -/
theorem claim_C5_async_class_default (env : Env) (cfg : Config)
    (st : ComponentState)
    (h : (SQLAlchemyComponent.init env cfg).result = Except.ok st)
    (ha : st.engine.isAsync = true) :
    dictLookup st.sessionmaker.args "class_"
        = some ((dictLookup (cfg.session_args.getD []) "class_").getD
            (Val.scalar (SVal.sessionClass SessionClass.asyncSession)))
      ∧ (dictLookup (cfg.session_args.getD []) "class_" = none →
          ∀ info : Dict,
            (st.sessionmaker.call info).cls = SessionClass.asyncSession) := by
  obtain ⟨-, -, hargs, -, -⟩ := init_ok_shape env cfg st h
  have hforced : dictLookup (forcedSessionArgs cfg.session_args) "class_"
      = dictLookup (cfg.session_args.getD []) "class_" := by
    unfold forcedSessionArgs
    rw [dictLookup_set_ne _ _ _ _ (by decide),
      dictLookup_set_ne _ _ _ _ (by decide)]
  have hclass : dictLookup st.sessionmaker.args "class_"
      = some ((dictLookup (cfg.session_args.getD []) "class_").getD
          (Val.scalar (SVal.sessionClass SessionClass.asyncSession))) := by
    rw [hargs]
    unfold classDefaulted
    rw [if_pos ha, dictLookup_setdefault_self, hforced]
  refine ⟨hclass, ?_⟩
  intro hnone info
  unfold Sessionmaker.call
  rw [hnone] at hclass
  rw [hclass]
  rfl

theorem claim_C5_witness :
    dictLookup stAsyncNoClass.sessionmaker.args "class_"
        = some (Val.scalar (SVal.sessionClass SessionClass.asyncSession))
      ∧ (stAsyncNoClass.sessionmaker.call
          [("ctx", Val.scalar (SVal.ctxRef 0))]).cls
        = SessionClass.asyncSession := by
  obtain ⟨h1, h2⟩ :=
    claim_C5_async_class_default probeEnv cfgAsyncNoClass stAsyncNoClass
      rfl rfl
  exact ⟨h1, h2 rfl [("ctx", Val.scalar (SVal.ctxRef 0))]⟩

/-! ## Teardown finalizers -/

theorem teardown_async_eq_sync (env : DbEnv) (s : PySession)
    (exc : Option PyError) :
    teardown_session_async env s exc = teardown_session env s exc := rfl

theorem teardown_session_acts_shape (env : DbEnv) (s : PySession)
    (exc : Option PyError) :
    (teardown_session env s exc).acts
      = (teardownTryBlock env s exc).2.1 ++ [TAct.close, TAct.removeCtx] := by
  unfold teardown_session
  rcases teardownTryBlock env s exc with ⟨s1, acts, err⟩
  rfl

theorem teardownTryBlock_acts_commit_or_rollback (env : DbEnv)
    (s : PySession) (exc : Option PyError) :
    ∀ a ∈ (teardownTryBlock env s exc).2.1,
      a = TAct.commit ∨ a = TAct.rollback := by
  unfold teardownTryBlock
  cases hT : s.inTransaction with
  | false => simp
  | true =>
    cases exc with
    | none => cases env.commitFail <;> simp
    | some f => cases env.rollbackFail <;> simp

theorem teardownTryBlock_info (env : DbEnv) (s : PySession)
    (exc : Option PyError) :
    (teardownTryBlock env s exc).1.info = s.info := by
  unfold teardownTryBlock
  cases hT : s.inTransaction with
  | false => simp
  | true =>
    cases exc with
    | none => cases env.commitFail <;> simp
    | some f => cases env.rollbackFail <;> simp

/-- C1: in both the synchronous and asynchronous teardown finalizers, an
open transaction is committed when the unit of work ended without a failure
and rolled back when a failure is passed in; in every case — including when
the commit or rollback step itself raises — the session ends closed with
its `"ctx"` metadata entry removed, and the commit/rollback error is what
propagates out of the finalizer after that cleanup. -/
theorem claim_C1_teardown_finalizer_cleanup (env : DbEnv) (s : PySession)
    (exc : Option PyError) (hwf : DictWF s.info) :
    teardown_session_async env s exc = teardown_session env s exc
      ∧ (s.inTransaction = true → exc = none →
          TAct.commit ∈ (teardown_session env s exc).acts)
      ∧ (s.inTransaction = true → exc ≠ none →
          TAct.rollback ∈ (teardown_session env s exc).acts)
      ∧ (teardown_session env s exc).session.closed = true
      ∧ dictLookup (teardown_session env s exc).session.info "ctx" = none
      ∧ (teardown_session env s exc).raised
          = (if s.inTransaction then
              (match exc with
               | none => env.commitFail
               | some _ => env.rollbackFail)
             else none) := by
  refine ⟨rfl, ?_, ?_, ?_, ?_, ?_⟩
  · intro hT hexc
    subst hexc
    rw [teardown_session_acts_shape]
    unfold teardownTryBlock
    cases env.commitFail <;> simp [hT]
  · intro hT hexc
    cases exc with
    | none => exact absurd rfl hexc
    | some f =>
      rw [teardown_session_acts_shape]
      unfold teardownTryBlock
      cases env.rollbackFail <;> simp [hT]
  · unfold teardown_session
    rcases teardownTryBlock env s exc with ⟨s1, acts, err⟩
    rfl
  · have hinfo := teardownTryBlock_info env s exc
    unfold teardown_session
    rcases h : teardownTryBlock env s exc with ⟨s1, acts, err⟩
    rw [h] at hinfo
    show dictLookup (dictDel s1.info "ctx") "ctx" = none
    rw [show s1.info = s.info from hinfo]
    exact dictLookup_del_self s.info "ctx" hwf
  · unfold teardown_session teardownTryBlock
    cases hT : s.inTransaction with
    | false => simp
    | true =>
      cases exc with
      | none => cases env.commitFail <;> simp
      | some f => cases env.rollbackFail <;> simp

theorem claim_C1_witness :
    TAct.commit ∈ (teardown_session envCommitBoom sOpen none).acts
      ∧ (teardown_session envCommitBoom sOpen none).session.closed = true
      ∧ dictLookup (teardown_session envCommitBoom sOpen none).session.info
          "ctx" = none
      ∧ (teardown_session envCommitBoom sOpen none).raised
          = some (PyError.other 7) := by
  obtain ⟨-, h2, -, h4, h5, h6⟩ :=
    claim_C1_teardown_finalizer_cleanup envCommitBoom sOpen none (by decide)
  exact ⟨h2 rfl rfl, h4, h5, h6⟩

theorem teardown_session_closed_always (env : DbEnv) (s : PySession)
    (exc : Option PyError) :
    (teardown_session env s exc).session.closed = true := by
  unfold teardown_session
  rcases teardownTryBlock env s exc with ⟨s1, acts, err⟩
  rfl

theorem teardown_session_ctx_removed (env : DbEnv) (s : PySession)
    (exc : Option PyError) (hwf : DictWF s.info) :
    dictLookup (teardown_session env s exc).session.info "ctx" = none := by
  have hinfo := teardownTryBlock_info env s exc
  unfold teardown_session
  rcases h : teardownTryBlock env s exc with ⟨s1, acts, err⟩
  rw [h] at hinfo
  show dictLookup (dictDel s1.info "ctx") "ctx" = none
  rw [show s1.info = s.info from hinfo]
  exact dictLookup_del_self s.info "ctx" hwf

theorem teardown_session_raised_eq (env : DbEnv) (s : PySession)
    (exc : Option PyError) :
    (teardown_session env s exc).raised
      = (teardownTryBlock env s exc).2.2 := by
  unfold teardown_session
  rcases teardownTryBlock env s exc with ⟨s1, acts, err⟩
  rfl

/-- C6: for every session and every execution of either teardown finalizer
(success or failure), commit-or-rollback, when performed, always precedes
close, and removal of the context-association entry always follows close:
the action sequence is commit/rollback steps followed by exactly `close`
and then `removeCtx`. -/
theorem claim_C6_teardown_ordering (env : DbEnv) (s : PySession)
    (exc : Option PyError) :
    (∃ cr : List TAct,
        (teardown_session env s exc).acts
            = cr ++ [TAct.close, TAct.removeCtx]
          ∧ ∀ a ∈ cr, a = TAct.commit ∨ a = TAct.rollback)
      ∧ (∃ cr : List TAct,
          (teardown_session_async env s exc).acts
              = cr ++ [TAct.close, TAct.removeCtx]
            ∧ ∀ a ∈ cr, a = TAct.commit ∨ a = TAct.rollback) := by
  constructor
  · exact ⟨(teardownTryBlock env s exc).2.1,
      teardown_session_acts_shape env s exc,
      teardownTryBlock_acts_commit_or_rollback env s exc⟩
  · exact ⟨(teardownTryBlock env s exc).2.1,
      (congrArg TeardownResult.acts
        (teardown_async_eq_sync env s exc)).trans
          (teardown_session_acts_shape env s exc),
      teardownTryBlock_acts_commit_or_rollback env s exc⟩

theorem claim_C6_witness :
    ∃ cr : List TAct,
      (teardown_session envCommitBoom sOpen none).acts
          = cr ++ [TAct.close, TAct.removeCtx]
        ∧ ∀ a ∈ cr, a = TAct.commit ∨ a = TAct.rollback :=
  (claim_C6_teardown_ordering envCommitBoom sOpen none).1

/-- C7: a session that is not in an open transaction when its owning
context ends is closed by the finalizer (and its context association
removed) without any commit or rollback being attempted, regardless of
whether the context ended with a failure, and nothing propagates out of
the finalizer; the asynchronous finalizer behaves identically. -/
theorem claim_C7_no_transaction_teardown (env : DbEnv) (s : PySession)
    (exc : Option PyError) (hT : s.inTransaction = false)
    (hwf : DictWF s.info) :
    (teardown_session env s exc).acts = [TAct.close, TAct.removeCtx]
      ∧ TAct.commit ∉ (teardown_session env s exc).acts
      ∧ TAct.rollback ∉ (teardown_session env s exc).acts
      ∧ (teardown_session env s exc).session.closed = true
      ∧ dictLookup (teardown_session env s exc).session.info "ctx" = none
      ∧ (teardown_session env s exc).raised = none
      ∧ teardown_session_async env s exc = teardown_session env s exc := by
  have hacts : (teardown_session env s exc).acts
      = [TAct.close, TAct.removeCtx] := by
    rw [teardown_session_acts_shape]
    unfold teardownTryBlock
    simp [hT]
  refine ⟨hacts, ?_, ?_, teardown_session_closed_always env s exc,
    teardown_session_ctx_removed env s exc hwf, ?_, rfl⟩
  · rw [hacts]
    simp
  · rw [hacts]
    simp
  · rw [teardown_session_raised_eq]
    unfold teardownTryBlock
    simp [hT]

theorem claim_C7_witness :
    (teardown_session envCommitBoom sIdle (some (PyError.other 1))).acts
        = [TAct.close, TAct.removeCtx]
      ∧ (teardown_session envCommitBoom sIdle
          (some (PyError.other 1))).raised = none := by
  obtain ⟨h1, -, -, -, -, h6, -⟩ :=
    claim_C7_no_transaction_teardown envCommitBoom sIdle
      (some (PyError.other 1)) rfl (by decide)
  exact ⟨h1, h6⟩

end AsphaltSqlalchemy
